import Mathlib

/-!
Verification development for the scoring API repository
(`src/scoring/field.py`, `src/scoring/api.py`).

The Python validation framework is shallowly embedded: Python values that
can reach the validators are modelled by the inductive type `Value`
(JSON-ish values plus the converted `date` representation), Python
instance state (`instance.__dict__`) by the structure `Inst`, and each
field descriptor class by a `FieldKind` tag.  Machine-level Python
behaviours that the code relies on are modelled explicitly:

* `isinstance(x, int)` is true for Python booleans (`bool` is a subclass
  of `int`), see `pyIsInt`;
* `'{:s}'.format(x)` raises `TypeError` for non-strings, see `pyFormatS`;
* `re` patterns anchored with `$` also match just before one trailing
  newline, see `pyDigitsThenEnd` / `emailReMatch`;
* `datetime.datetime.strptime(s, "%d.%m.%Y")` is modelled after CPython
  `_strptime` (ordered alternation for `%d`/`%m`, exactly four digits for
  `%Y`, whole-string consumption, calendar validity), see `pyStrptimeDMY`.

`\d` and the character classes are modelled over ASCII; inputs are
assumed ASCII, which covers every concrete value appearing in the
development.  The wall clock (`datetime.date.today()` inside
`BirthDayField.is_valid_birthday`, `datetime.datetime.now()` inside
`check_auth`) is passed in as an explicit parameter, and the SHA-512
digest is an opaque function parameter.
-/

namespace Scoring

/-- A calendar date as produced by `datetime.date`. -/
structure PyDate where
  year : Int
  month : Int
  day : Int
deriving DecidableEq

/-- Python values reaching the validators: JSON data (null, bool, int,
string, list, object) plus the converted calendar date produced by
`DateField`. -/
inductive Value where
  | null : Value
  | bool (b : Bool) : Value
  | int (n : Int) : Value
  | str (s : String) : Value
  | list (xs : List Value) : Value
  | dict (entries : List (String × Value)) : Value
  | date (d : PyDate) : Value

/-- `value is None` in Python. -/
def isNull : Value → Bool
  | .null => true
  | _ => false

/-- `isinstance(value, str)`. -/
def pyIsStr : Value → Bool
  | .str _ => true
  | _ => false

/-- `isinstance(value, int)`.  In Python, `bool` is a subclass of `int`,
so booleans satisfy this check. -/
def pyIsInt : Value → Bool
  | .int _ => true
  | .bool _ => true
  | _ => false

/-- `isinstance(value, list)`. -/
def pyIsList : Value → Bool
  | .list _ => true
  | _ => false

/-- `isinstance(value, dict)`. -/
def pyIsDict : Value → Bool
  | .dict _ => true
  | _ => false

/-- `str(value)` for the string/int/bool values the phone field can see
(`str(True) = "True"`, `str(False) = "False"`, identity on strings). -/
def pyStrOf : Value → String
  | .str s => s
  | .int n => toString n
  | .bool b => if b then "True" else "False"
  | _ => ""

/-- Projection used after a check guaranteed the value is a string. -/
def getStr : Value → String
  | .str s => s
  | _ => ""

/-- Projection used after a check guaranteed the value is a date. -/
def getDateV : Value → PyDate
  | .date d => d
  | _ => ⟨1900, 1, 1⟩

/-- Python `==` between a value and a string (`False` unless both are
strings; `None == "x"` is `False`). -/
def pyEqStr (v : Value) (s : String) : Bool :=
  match v with
  | .str t => t == s
  | _ => false

/-- Python `==` between a value and an int literal; `True == 1` and
`False == 0` hold because `bool` is an `int` subclass. -/
def pyEqInt (v : Value) (k : Int) : Bool :=
  match v with
  | .int n => n == k
  | .bool b => (if b then (1 : Int) else 0) == k
  | _ => false

/-- Numeric content of an int-like value (`True` counts as `1`). -/
def valueToInt : Value → Int
  | .int n => n
  | .bool b => if b then 1 else 0
  | _ => 0

/-- First-match lookup in an association list (Python `dict` access;
keys are unique in every dictionary the program builds). -/
def lookupKey (r : List (String × Value)) (k : String) : Option Value :=
  match r with
  | [] => none
  | (k', v) :: t => if k' = k then some v else lookupKey t k

/-- Python `dict` assignment `d[k] = v`: replace the binding if the key
is present, otherwise append it. -/
def setKey : List (String × Value) → String → Value → List (String × Value)
  | [], k, v => [(k, v)]
  | (k', v') :: t, k, v => if k' = k then (k, v) :: t else (k', v') :: setKey t k v

/-- `'{:s}'.format(value)`: succeeds only on strings; on `None` (and any
other non-string) CPython raises `TypeError`. -/
def pyFormatS : Value → Except String String
  | .str s => .ok s
  | _ => .error "unsupported format string passed to NoneType.__format__"

/-! ### Regex models (`field.py`) -/

/-- Model of `\d+$` (Python `re`, no `re.MULTILINE`): at least one ASCII
digit, ending at the end of the string or just before a single trailing
newline (Python `$` also matches before a final newline). -/
def pyDigitsThenEnd (cs : List Char) : Bool :=
  let core := if cs.getLast? == some '\n' then cs.dropLast else cs
  !core.isEmpty && core.all Char.isDigit

/-- `re.match(PhoneField.VALIDATE_PHONE_RE, phone)`, pattern `^7\d+$`
(field.py line 107). -/
def phoneReMatch (s : String) : Bool :=
  match s.data with
  | c :: rest => c == '7' && pyDigitsThenEnd rest
  | [] => false

/-- `PhoneField.is_valid_phone` (field.py lines 109-111):
`len(phone) == 11 and re.match("^7\d+$", phone)`. -/
def is_valid_phone (phone : String) : Bool :=
  phone.length == 11 && phoneReMatch phone

/-- The email local part matched by `.+` (any characters except newline,
at least one). -/
def emailLocalOk (l : List Char) : Bool :=
  !l.isEmpty && l.all (· != '\n')

/-- Characters of the class `[a-zA-Z0-9\-\.]`. -/
def emailDomChar (c : Char) : Bool :=
  c.isAlpha || c.isDigit || c == '-' || c == '.'

/-- `([a-zA-Z]{2,3}|[0-9]{1,3})`: the TLD alternatives. -/
def emailTldCore (t : List Char) : Bool :=
  ((t.length == 2 || t.length == 3) && t.all Char.isAlpha) ||
  ((decide (1 ≤ t.length) && decide (t.length ≤ 3)) && t.all Char.isDigit)

/-- TLD followed by the optional closing bracket `(\]?)`. -/
def emailTldOk (t : List Char) : Bool :=
  emailTldCore t || (t.getLast? == some ']' && emailTldCore t.dropLast)

/-- `[a-zA-Z0-9\-\.]+\.([a-zA-Z]{2,3}|[0-9]{1,3})(\]?)` against the whole
remaining character list: some split at a dot with a nonempty class body
before it and a valid TLD after it (the existential over split points
models regex backtracking). -/
def emailDomBodyOk (r : List Char) : Bool :=
  (List.range r.length).any fun j =>
    decide (1 ≤ j) && (r.take j).all emailDomChar && (r.get? j == some '.') &&
      emailTldOk (r.drop (j + 1))

/-- Domain part with the optional opening bracket `(\[?)`. -/
def emailDomainOk (rest : List Char) : Bool :=
  emailDomBodyOk rest ||
    (match rest with
     | '[' :: r => emailDomBodyOk r
     | _ => false)

/-- Full-anchored match of `EmailField.VALIDATE_EMAIL_RE` (field.py
line 93) against a character list: some split at an `@`. -/
def emailMatchCore (cs : List Char) : Bool :=
  (List.range cs.length).any fun i =>
    decide (1 ≤ i) && (cs.get? i == some '@') && emailLocalOk (cs.take i) &&
      emailDomainOk (cs.drop (i + 1))

/-- `re.match(EmailField.VALIDATE_EMAIL_RE, email)`, including the `$`
trailing-newline tolerance. -/
def emailReMatch (s : String) : Bool :=
  emailMatchCore s.data ||
    (s.data.getLast? == some '\n' && emailMatchCore s.data.dropLast)

/-- `EmailField.is_valid_email` (field.py lines 95-97):
`len(email) > 7 and re.match(...)`. -/
def is_valid_email (email : String) : Bool :=
  decide (7 < email.length) && emailReMatch email

/-! ### Date model (`datetime.datetime.strptime(value, "%d.%m.%Y")`) -/

/-- Gregorian leap year, as in `datetime`. -/
def isLeapYear (y : Int) : Bool :=
  y % 4 == 0 && (y % 100 != 0 || y % 400 == 0)

/-- Days in a month, as in `datetime` (month is 1-12 at call sites). -/
def daysInMonth (y : Int) (m : Int) : Int :=
  if m == 2 then (if isLeapYear y then 29 else 28)
  else if m == 4 || m == 6 || m == 9 || m == 11 then 30
  else 31

/-- Numeric value of an ASCII digit. -/
def digitVal (c : Char) : Int :=
  Int.ofNat c.toNat - 48

/-- The two-digit alternatives of CPython `_strptime` for `%d`:
`3[01]|[12]\d|0[1-9]`. -/
def twoDigitDayOk (c1 c2 : Char) : Bool :=
  (c1 == '3' && (c2 == '0' || c2 == '1')) ||
  ((c1 == '1' || c1 == '2') && c2.isDigit) ||
  (c1 == '0' && c2.isDigit && c2 != '0')

/-- The two-digit alternatives of `_strptime` for `%m`: `1[0-2]|0[1-9]`. -/
def twoDigitMonthOk (c1 c2 : Char) : Bool :=
  (c1 == '1' && (c2 == '0' || c2 == '1' || c2 == '2')) ||
  (c1 == '0' && c2.isDigit && c2 != '0')

/-- A nonzero ASCII digit (`[1-9]`). -/
def oneDigitOk (c : Char) : Bool :=
  c.isDigit && c != '0'

/-- Parse `%d` followed by the literal dot.  `_strptime` compiles `%d` to
`(3[01]|[12]\d|0[1-9]|[1-9]| [1-9])`; ordered alternation with the
following literal `.` reduces to: two digits then a dot, else one nonzero
digit then a dot, else a space, one nonzero digit and a dot. -/
def parseDayDot (cs : List Char) : Option (Int × List Char) :=
  match cs with
  | c1 :: c2 :: c3 :: rest =>
    if twoDigitDayOk c1 c2 && c3 == '.' then some (digitVal c1 * 10 + digitVal c2, rest)
    else if oneDigitOk c1 && c2 == '.' then some (digitVal c1, c3 :: rest)
    else if c1 == ' ' && oneDigitOk c2 && c3 == '.' then some (digitVal c2, rest)
    else none
  | [c1, c2] => if oneDigitOk c1 && c2 == '.' then some (digitVal c1, []) else none
  | _ => none

/-- Parse `%m` followed by the literal dot (`(1[0-2]|0[1-9]|[1-9])` then
`.`). -/
def parseMonthDot (cs : List Char) : Option (Int × List Char) :=
  match cs with
  | c1 :: c2 :: c3 :: rest =>
    if twoDigitMonthOk c1 c2 && c3 == '.' then some (digitVal c1 * 10 + digitVal c2, rest)
    else if oneDigitOk c1 && c2 == '.' then some (digitVal c1, c3 :: rest)
    else none
  | [c1, c2] => if oneDigitOk c1 && c2 == '.' then some (digitVal c1, []) else none
  | _ => none

/-- Parse `%Y` at the end of the input: `_strptime` compiles `%Y` to
exactly four digits, and `strptime` then requires the whole string to be
consumed. -/
def parseYearEnd (cs : List Char) : Option Int :=
  match cs with
  | [a, b, c, d] =>
    if a.isDigit && b.isDigit && c.isDigit && d.isDigit then
      some (digitVal a * 1000 + digitVal b * 100 + digitVal c * 10 + digitVal d)
    else none
  | _ => none

/-- `datetime.datetime.strptime(s, "%d.%m.%Y").date()` (field.py
line 133), with `ValueError` modelled as `.error` carrying the message
text used by CPython. -/
def pyStrptimeDMY (s : String) : Except String PyDate :=
  match parseDayDot s.data with
  | none => .error ("time data " ++ s ++ " does not match format %d.%m.%Y")
  | some (d, cs1) =>
    match parseMonthDot cs1 with
    | none => .error ("time data " ++ s ++ " does not match format %d.%m.%Y")
    | some (m, cs2) =>
      match parseYearEnd cs2 with
      | none => .error ("time data " ++ s ++ " does not match format %d.%m.%Y")
      | some y =>
        if y == 0 then .error "year 0 is out of range"
        else if decide (daysInMonth y m < d) then .error "day is out of range for month"
        else .ok ⟨y, m, d⟩

/-- `BirthDayField.is_valid_birthday` (field.py lines 140-146), with
`datetime.date.today()` passed in as `td`. -/
def is_valid_birthday (td date : PyDate) : Bool :=
  let years := td.year - date.year
  let years2 :=
    if td.month < date.month ∨ (td.month = date.month ∧ td.day < date.day) then years - 1
    else years
  decide (years2 ≤ 70)

/-! ### Field descriptors (`field.py`) -/

/-- One tag per `Field` subclass in `field.py` (`base` is the `Field`
class itself, whose `validate_convert_value` is the identity). -/
inductive FieldKind where
  | base
  | char
  | arguments
  | email
  | phone
  | date
  | birthday
  | gender
  | clientIDs
deriving DecidableEq

/-- A field descriptor: the constructor arguments of `Field.__init__`
plus the `field_name` bound by `FieldHolderMeta` and the subclass tag. -/
structure FieldDesc where
  field_name : String
  required : Bool
  nullable : Bool
  kind : FieldKind
deriving DecidableEq

/-- `Field.format_err` (field.py lines 21-22). -/
def format_err (field_name msg : String) : String :=
  field_name ++ ": " ++ msg

/-- `CharField.validate_convert_value` after the `super()` call
(field.py lines 76-81). -/
def charCheck (nm : String) (p : List String × Value) : List String × Value :=
  if p.1 = [] ∧ pyIsStr p.2 = false then (p.1 ++ [format_err nm "field must be string"], p.2)
  else p

/-- `ArgumentsField.validate_convert_value` (field.py lines 84-89). -/
def argumentsCheck (nm : String) (p : List String × Value) : List String × Value :=
  if p.1 = [] ∧ pyIsDict p.2 = false then (p.1 ++ [format_err nm "field must be object"], p.2)
  else p

/-- The `EmailField`-specific part of `validate_convert_value`
(field.py lines 99-103); runs after the `CharField` step. -/
def emailCheck (nm : String) (p : List String × Value) : List String × Value :=
  if p.1 = [] ∧ is_valid_email (getStr p.2) = false then
    (p.1 ++ [format_err nm "field must be valid email address"], p.2)
  else p

/-- `PhoneField.validate_convert_value` (field.py lines 113-123): accept
strings and ints, stringify ints (including booleans, which satisfy the
`int` check), then apply `is_valid_phone`.  The (possibly stringified)
value is returned even when the pattern check fails. -/
def phoneCheck (nm : String) (p : List String × Value) : List String × Value :=
  if p.1 = [] then
    if pyIsStr p.2 = false ∧ pyIsInt p.2 = false then
      (p.1 ++ [format_err nm "field must be string or number"], p.2)
    else
      let v := if pyIsInt p.2 then Value.str (pyStrOf p.2) else p.2
      if is_valid_phone (getStr v) = false then
        (p.1 ++ [format_err nm "field must be valid phone (11 digits, leading digit = 7)"], v)
      else (p.1, v)
  else p

/-- The `DateField`-specific part of `validate_convert_value`
(field.py lines 129-136); runs after the `CharField` step.  On parse
success the converted value is the calendar date; the `ValueError`
message is interpolated into the field error. -/
def dateCheck (nm : String) (p : List String × Value) : List String × Value :=
  if p.1 = [] then
    match pyStrptimeDMY (getStr p.2) with
    | .ok d => (p.1, Value.date d)
    | .error e => (p.1 ++ [format_err nm ("invalid date format (" ++ e ++ ")")], p.2)
  else p

/-- The `BirthDayField`-specific part of `validate_convert_value`
(field.py lines 148-152); runs after the `DateField` step. -/
def birthdayCheck (today : PyDate) (nm : String) (p : List String × Value) :
    List String × Value :=
  if p.1 = [] ∧ is_valid_birthday today (getDateV p.2) = false then
    (p.1 ++ [format_err nm "invalid birthday"], p.2)
  else p

/-- `GenderField.validate_convert_value` (field.py lines 155-163): an
`int` (booleans included) equal to 0, 1 or 2 under Python `==`. -/
def genderCheck (nm : String) (p : List String × Value) : List String × Value :=
  if p.1 = [] then
    if pyIsInt p.2 = false then (p.1 ++ [format_err nm "field must be number"], p.2)
    else if (pyEqInt p.2 0 || pyEqInt p.2 1 || pyEqInt p.2 2) = false then
      (p.1 ++ [format_err nm "field must be 0, 1 or 2"], p.2)
    else p
  else p

/-- `ClientIDsField.validate_convert_value` (field.py lines 166-174): a
list whose elements all satisfy `isinstance(x, int)` (no sign check). -/
def clientIDsCheck (nm : String) (p : List String × Value) : List String × Value :=
  if p.1 = [] then
    if pyIsList p.2 = false then (p.1 ++ [format_err nm "field must be list"], p.2)
    else match p.2 with
      | .list xs =>
        if xs.all pyIsInt = false then (p.1 ++ [format_err nm "field must be list of numbers"], p.2)
        else p
      | _ => p
  else p

/-- `validate_convert_value` for every field kind, chaining each
subclass after its `super()` call as in `field.py`. -/
def validate_convert_value (today : PyDate) (k : FieldKind) (nm : String)
    (errs : List String) (v : Value) : List String × Value :=
  match k with
  | .base => (errs, v)
  | .char => charCheck nm (errs, v)
  | .arguments => argumentsCheck nm (errs, v)
  | .email => emailCheck nm (charCheck nm (errs, v))
  | .phone => phoneCheck nm (errs, v)
  | .date => dateCheck nm (charCheck nm (errs, v))
  | .birthday => birthdayCheck today nm (dateCheck nm (charCheck nm (errs, v)))
  | .gender => genderCheck nm (errs, v)
  | .clientIDs => clientIDsCheck nm (errs, v)

/-- The state of a `FieldHolder` instance: `orig` holds the
`<name>_orig` entries of `instance.__dict__` written by `Field.__set__`
at construction (the raw input restricted to the schema), `rec` the
committed converted values written by `Field.validate`. -/
structure Inst where
  orig : List (String × Value)
  record : List (String × Value)

/-- The decision core of `Field.validate` (field.py lines 24-39) as a
function of the raw (`orig`) state: the error list produced for this
field and the optional write to `instance.__dict__[field_name]`.

Mirrors the source: the `required` error fires only when the key is
absent; an absent or `None` value then flows into the null handling,
which either errors (`not nullable`) or commits `None` — note that the
commit of `None` happens even when the `required` error was recorded. -/
def fieldStep (today : PyDate) (f : FieldDesc) (orig : List (String × Value)) :
    List String × Option Value :=
  let value? := lookupKey orig f.field_name
  let errs0 :=
    if value?.isNone ∧ f.required then [format_err f.field_name "required field absent"]
    else []
  let v := value?.getD Value.null
  if isNull v = false then
    let p := validate_convert_value today f.kind f.field_name errs0 v
    (p.1, if p.1 = [] then some p.2 else none)
  else if f.nullable = false then
    (errs0 ++ [format_err f.field_name "field must not be null"], none)
  else (errs0, some Value.null)

/-- Apply the optional write produced by `fieldStep`. -/
def applyWrite (rec : List (String × Value)) (nm : String) :
    Option Value → List (String × Value)
  | some v => setKey rec nm v
  | none => rec

/-- `Field.validate` (field.py lines 24-39): compute the error list and
thread the instance state. -/
def fieldValidate (today : PyDate) (f : FieldDesc) (inst : Inst) : List String × Inst :=
  ((fieldStep today f inst.orig).1,
   ⟨inst.orig, applyWrite inst.record f.field_name (fieldStep today f inst.orig).2⟩)

/-- One step of the loop in `FieldHolderBase.validate`. -/
def holderStep (today : PyDate) (p : List String × Inst) (f : FieldDesc) : List String × Inst :=
  (p.1 ++ (fieldValidate today f p.2).1, (fieldValidate today f p.2).2)

/-- `FieldHolderBase.validate` (field.py lines 61-65): run every field
descriptor in declaration order, concatenating the error lists. -/
def holderValidate (today : PyDate) (fields : List FieldDesc) (inst : Inst) :
    List String × Inst :=
  fields.foldl (holderStep today) ([], inst)

/-- `FieldHolderBase.__init__` (field.py lines 56-59): store
`struct[field_name]` for every schema field present in the input. -/
def mkInst (fields : List FieldDesc) (struct : List (String × Value)) : Inst :=
  ⟨fields.filterMap fun f => (lookupKey struct f.field_name).map fun v => (f.field_name, v), []⟩

/-- Attribute read `instance.<field_name>` through `Field.__get__`
(field.py lines 14-15).  In Python a missing key raises `KeyError`;
every modelled call site is guarded by a successful validation, which
commits a value for every schema field, so a default of `None` is safe. -/
def getAttr (inst : Inst) (nm : String) : Value :=
  (lookupKey inst.record nm).getD Value.null

/-! ### Request schemas (`api.py`) -/

/-- The schema of `MethodRequest` (api.py lines 85-90), in class-body
(declaration) order. -/
def methodRequestFields : List FieldDesc :=
  [⟨"account", false, true, .char⟩,
   ⟨"login", true, true, .char⟩,
   ⟨"token", true, true, .char⟩,
   ⟨"arguments", true, true, .arguments⟩,
   ⟨"method", true, false, .char⟩]

/-- The schema of `OnlineScoreRequest` (api.py lines 58-64). -/
def onlineScoreFields : List FieldDesc :=
  [⟨"first_name", false, true, .char⟩,
   ⟨"last_name", false, true, .char⟩,
   ⟨"email", false, true, .email⟩,
   ⟨"phone", false, true, .phone⟩,
   ⟨"birthday", false, true, .birthday⟩,
   ⟨"gender", false, true, .gender⟩]

/-- The schema of `ClientsInterestsRequest` (api.py lines 43-45);
`client_ids` uses the default `nullable=False`. -/
def clientsInterestsFields : List FieldDesc :=
  [⟨"client_ids", true, false, .clientIDs⟩,
   ⟨"date", false, true, .date⟩]

/-- Python falsiness of a committed list value (`not self.client_ids`
for a list is true exactly on the empty list). -/
def isEmptyList : Value → Bool
  | .list [] => true
  | _ => false

/-- The condition of the cross-field check in
`OnlineScoreRequest.validate` (api.py lines 79-80): every pair has a
missing (`None`) member. -/
def notEnoughArguments (i : Inst) : Bool :=
  (isNull (getAttr i "phone") || isNull (getAttr i "email")) &&
  (isNull (getAttr i "first_name") || isNull (getAttr i "last_name")) &&
  (isNull (getAttr i "gender") || isNull (getAttr i "birthday"))

/-- `OnlineScoreRequest.validate` (api.py lines 77-82): per-field
validation, then the cross-field completeness rule, which runs only when
the per-field error list is empty. -/
def onlineScoreValidate (today : PyDate) (struct : List (String × Value)) :
    List String × Inst :=
  match holderValidate today onlineScoreFields (mkInst onlineScoreFields struct) with
  | (e, i) =>
    if e = [] then
      if notEnoughArguments i then (e ++ ["not enough arguments"], i) else (e, i)
    else (e, i)

/-- `ClientsInterestsRequest.validate` (api.py lines 51-55): per-field
validation, then the non-empty-list rule. -/
def clientsInterestsValidate (today : PyDate) (struct : List (String × Value)) :
    List String × Inst :=
  match holderValidate today clientsInterestsFields (mkInst clientsInterestsFields struct) with
  | (e, i) =>
    if e = [] then
      if pyIsList (getAttr i "client_ids") && isEmptyList (getAttr i "client_ids") then
        (e ++ ["empty client list"], i)
      else (e, i)
    else (e, i)

/-! ### Authentication and dispatch (`api.py`) -/

/-- `MethodRequest.is_admin` (api.py lines 92-94): Python `==` between
the committed `login` value and `ADMIN_LOGIN`. -/
def is_admin (req : Inst) : Bool :=
  pyEqStr (getAttr req "login") "admin"

/-- `check_auth` (api.py lines 97-105).  `sha512hex` abstracts
`hashlib.sha512(.).hexdigest()`, `nowYmdH` the string
`datetime.datetime.now().strftime("%Y%m%d%H")`.  The standard branch
builds `'{:s}{:s}{:s}'.format(request.account, request.login, SALT)`,
which raises `TypeError` when `account` (or `login`) is `None`; the
raise is modelled by the `Except` error channel. -/
def check_auth (sha512hex : String → String) (nowYmdH : String) (req : Inst) :
    Except String Bool :=
  if is_admin req then
    let digest := sha512hex (nowYmdH ++ "42")
    .ok (pyEqStr (getAttr req "token") digest)
  else do
    let a ← pyFormatS (getAttr req "account")
    let l ← pyFormatS (getAttr req "login")
    let digest := sha512hex (a ++ l ++ "Otus")
    .ok (pyEqStr (getAttr req "token") digest)

/-- The external collaborators and clock readings of one request:
`sha512hex` and `nowYmdH` feed `check_auth`, `today` the birthday check,
`scoreOf` abstracts `scoring.get_score` and `interestsOf`
`scoring.get_interests` (both opaque to the core). -/
structure Collab where
  sha512hex : String → String
  nowYmdH : String
  today : PyDate
  scoreOf : Inst → Int
  interestsOf : Int → Value

/-- The `has` property of `OnlineScoreRequest` (api.py lines 66-75): the
schema fields whose committed value is not `None`, in declaration
order. -/
def hasDict (osr : Inst) : List (String × Value) :=
  onlineScoreFields.filterMap fun f =>
    match getAttr osr f.field_name with
    | .null => none
    | v => some (f.field_name, v)

/-- `get_score` (api.py lines 108-121) with the collaborator abstracted:
returns the response value, the number of `scoring.get_score` calls and
the updated context (`ctx['has']`). -/
def get_score (c : Collab) (mr osr : Inst) (ctx : List (String × Value)) :
    Value × Nat × List (String × Value) :=
  let score : Int := if is_admin mr then 42 else c.scoreOf osr
  let calls : Nat := if is_admin mr then 0 else 1
  (Value.dict [("score", Value.int score)], calls, setKey ctx "has" (Value.dict (hasDict osr)))

/-- The committed `client_ids` list of a validated
`ClientsInterestsRequest`. -/
def clientIdsOf (ci : Inst) : List Value :=
  match getAttr ci "client_ids" with
  | .list xs => xs
  | _ => []

/-- `get_interests` (api.py lines 124-129): one `scoring.get_interests`
call per client id, a dict keyed by the ids (serialized in decimal
form), and `ctx['nclients']` written inside the loop (so only when the
list is nonempty). -/
def get_interests (c : Collab) (ci : Inst) (ctx : List (String × Value)) :
    Value × Nat × List (String × Value) :=
  let cids := clientIdsOf ci
  let d := cids.foldl (fun d cid => setKey d (pyStrOf cid) (c.interestsOf (valueToInt cid))) []
  let ctx2 := if cids.isEmpty then ctx else setKey ctx "nclients" (Value.int (Int.ofNat cids.length))
  (Value.dict d, cids.length, ctx2)

/-- `FieldHolderBase.__init__` applied to `method_request.arguments`
(api.py line 148): iterating `field_name in struct` over `None` raises
`TypeError`; over a dict it yields the entries. -/
def asDict : Value → Except String (List (String × Value))
  | .dict d => .ok d
  | _ => .error "argument of type NoneType is not iterable"

/-- `'; '.join(error_msg)` (api.py line 154). -/
def joinSemi (es : List String) : String :=
  String.intercalate "; " es

/-- `method_handler` (api.py lines 139-155) over the validated-core
state: returns the response value, the HTTP-level code, the number of
collaborator calls made and the final context.  Exceptions escaping the
handler (the `TypeError` of `check_auth` or of the payload-holder
construction) surface on the `Except` error channel, matching the raise
that the transport layer would turn into code 500. -/
def method_handler (c : Collab) (ctx : List (String × Value))
    (body : List (String × Value)) :
    Except String (Value × Int × Nat × List (String × Value)) :=
  match holderValidate c.today methodRequestFields (mkInst methodRequestFields body) with
  | (errs, mr) =>
    if errs = [] then
      match check_auth c.sha512hex c.nowYmdH mr with
      | .error e => .error e
      | .ok auth =>
        if auth = false then .ok (Value.null, 403, 0, ctx)
        else if pyEqStr (getAttr mr "method") "online_score" then
          match asDict (getAttr mr "arguments") with
          | .error e => .error e
          | .ok args =>
            match onlineScoreValidate c.today args with
            | (pe, osr) =>
              if pe = [] then
                match get_score c mr osr ctx with
                | (resp, calls, ctx2) => .ok (resp, 200, calls, ctx2)
              else .ok (Value.str (joinSemi pe), 422, 0, ctx)
        else if pyEqStr (getAttr mr "method") "clients_interests" then
          match asDict (getAttr mr "arguments") with
          | .error e => .error e
          | .ok args =>
            match clientsInterestsValidate c.today args with
            | (pe, ci) =>
              if pe = [] then
                match get_interests c ci ctx with
                | (resp, calls, ctx2) => .ok (resp, 200, calls, ctx2)
              else .ok (Value.str (joinSemi pe), 422, 0, ctx)
        else .ok (Value.null, 422, 0, ctx)
    else .ok (Value.str (joinSemi errs), 422, 0, ctx)

/-! ### Characterizations of the engine state (used by the proofs) -/

/-- The concatenated error lists of a schema, as a function of the raw
(`orig`) state only — `fieldStep` never reads the committed record. -/
def holderErrs (today : PyDate) : List FieldDesc → List (String × Value) → List String
  | [], _ => []
  | f :: t, o => (fieldStep today f o).1 ++ holderErrs today t o

/-- The committed record after running a schema, as a fold of the
per-field writes over the initial record. -/
def holderRec (today : PyDate) :
    List FieldDesc → List (String × Value) → List (String × Value) → List (String × Value)
  | [], _, r => r
  | f :: t, o, r => holderRec today t o (applyWrite r f.field_name (fieldStep today f o).2)

/-! ### Spec-side definitions (used to compare the code with the
claims' wording) -/

/-- Spec-side: the whole-years age of the claim for C3 — the year
difference, decremented when today's month/day has not yet reached the
birth month/day. -/
def computedAge (td date : PyDate) : Int :=
  if td.month < date.month ∨ (td.month = date.month ∧ td.day < date.day) then
    td.year - date.year - 1
  else td.year - date.year

/-- The calendar day before a (valid) date. -/
def dayBefore (d : PyDate) : PyDate :=
  if 1 < d.day then ⟨d.year, d.month, d.day - 1⟩
  else if 1 < d.month then ⟨d.year, d.month - 1, daysInMonth d.year (d.month - 1)⟩
  else ⟨d.year - 1, 12, 31⟩

/-- Spec-side: at least one of the pairs (phone, email), (first_name,
last_name), (gender, birthday) has both members present and non-null in
the validated record — the success condition of the online-score
cross-field rule in claim C7. -/
def pairPresent (i : Inst) : Bool :=
  (!isNull (getAttr i "phone") && !isNull (getAttr i "email")) ||
  (!isNull (getAttr i "first_name") && !isNull (getAttr i "last_name")) ||
  (!isNull (getAttr i "gender") && !isNull (getAttr i "birthday"))

/-- Spec-side: the amended acceptance condition of the phone pattern
(claim C8): the string form has exactly 11 characters, starts with `7`,
and the remaining characters are all digits — or are digits followed by
one trailing newline, which the Python `$` anchor also accepts. -/
def phoneAcceptSpec (s : String) : Prop :=
  s.length = 11 ∧
  ((∃ ds, s.data = '7' :: ds ∧ ds ≠ [] ∧ ds.all Char.isDigit = true) ∨
   (∃ ds, s.data = '7' :: (ds ++ ['\n']) ∧ ds ≠ [] ∧ ds.all Char.isDigit = true))

/-! ### Concrete data used by the closed theorems -/

/-- A fixed reading of `datetime.date.today()`. -/
def today0 : PyDate := ⟨2026, 10, 12⟩

/-- A freshly constructed holder with no input. -/
def emptyInst : Inst := ⟨[], []⟩

/-- The `client_ids` descriptor of `ClientsInterestsRequest`
(api.py line 44). -/
def clientIdsDesc : FieldDesc := ⟨"client_ids", true, false, .clientIDs⟩

/-- The `account` descriptor of `MethodRequest` (api.py line 86). -/
def accountDesc : FieldDesc := ⟨"account", false, true, .char⟩

/-- A validated envelope state with a non-admin login and a null
account. -/
def req0 : Inst :=
  ⟨[], [("account", Value.null), ("login", Value.str "user"), ("token", Value.str "t")]⟩

/-- Collaborators for the dispatch theorems: a digest stub returning
`"T"` on every input, fixed clock readings, and opaque scoring
functions. -/
def collabT : Collab :=
  ⟨fun _ => "T", "2017010100", today0, fun _ => 5, fun _ => Value.list [Value.str "cars"]⟩

/-- An admin `online_score` request body. -/
def scoreBody : List (String × Value) :=
  [("login", Value.str "admin"), ("token", Value.str "T"),
   ("method", Value.str "online_score"),
   ("arguments", Value.dict [("first_name", Value.str "A"), ("last_name", Value.str "B")])]

/-- An admin `clients_interests` request body. -/
def interestsBody : List (String × Value) :=
  [("login", Value.str "admin"), ("token", Value.str "T"),
   ("method", Value.str "clients_interests"),
   ("arguments", Value.dict [("client_ids", Value.list [Value.int 1, Value.int 2, Value.int 3])])]

/-- The validated envelope state produced by `scoreBody`. -/
def mrScore : Inst :=
  ⟨[("login", Value.str "admin"), ("token", Value.str "T"),
    ("arguments", Value.dict [("first_name", Value.str "A"), ("last_name", Value.str "B")]),
    ("method", Value.str "online_score")],
   [("account", Value.null), ("login", Value.str "admin"), ("token", Value.str "T"),
    ("arguments", Value.dict [("first_name", Value.str "A"), ("last_name", Value.str "B")]),
    ("method", Value.str "online_score")]⟩

/-- The `arguments` payload of `scoreBody`. -/
def osArgsAB : List (String × Value) :=
  [("first_name", Value.str "A"), ("last_name", Value.str "B")]

/-- The validated online-score payload state produced by `osArgsAB`. -/
def osAB : Inst :=
  ⟨[("first_name", Value.str "A"), ("last_name", Value.str "B")],
   [("first_name", Value.str "A"), ("last_name", Value.str "B"), ("email", Value.null),
    ("phone", Value.null), ("birthday", Value.null), ("gender", Value.null)]⟩

/-- An envelope input whose `account` passes individually while
required fields are missing. -/
def c5struct : List (String × Value) := [("account", Value.str "acme")]

/-- An online-score payload satisfying only the name pair. -/
def c7struct : List (String × Value) :=
  [("first_name", Value.str "A"), ("last_name", Value.str "B")]

/-- A mixed envelope input (one type error, one passing field) for the
idempotence witness. -/
def c9struct : List (String × Value) :=
  [("login", Value.str "u"), ("method", Value.str "m"), ("account", Value.int 3)]

/-! ### Association-list lemmas -/

theorem lookupKey_setKey_self (r : List (String × Value)) (k : String) (v : Value) :
    lookupKey (setKey r k v) k = some v := by
  induction r with
  | nil => simp [setKey, lookupKey]
  | cons p t ih =>
    obtain ⟨k', v'⟩ := p
    by_cases hk : k' = k
    · simp [setKey, hk, lookupKey]
    · simp [setKey, hk, lookupKey, ih]

theorem lookupKey_setKey_ne (r : List (String × Value)) (k : String) (v : Value)
    (q : String) (hne : k ≠ q) :
    lookupKey (setKey r k v) q = lookupKey r q := by
  induction r with
  | nil => simp [setKey, lookupKey, hne]
  | cons p t ih =>
    obtain ⟨k', v'⟩ := p
    by_cases hk : k' = k
    · subst hk
      simp [setKey, lookupKey, hne]
    · simp [setKey, hk, lookupKey, ih]

theorem setKey_eq_of_lookup (r : List (String × Value)) (k : String) (v : Value)
    (h : lookupKey r k = some v) : setKey r k v = r := by
  induction r with
  | nil => simp [lookupKey] at h
  | cons p t ih =>
    obtain ⟨k', v'⟩ := p
    by_cases hk : k' = k
    · subst hk
      simp [lookupKey] at h
      simp [setKey, h]
    · simp [lookupKey, hk] at h
      simp [setKey, hk, ih h]

/-! ### Engine characterization lemmas -/

theorem holder_foldl_char (today : PyDate) (fs : List FieldDesc) :
    ∀ (acc : List String) (o r : List (String × Value)),
      fs.foldl (holderStep today) (acc, (⟨o, r⟩ : Inst))
        = (acc ++ holderErrs today fs o, ⟨o, holderRec today fs o r⟩) := by
  induction fs with
  | nil => intro acc o r; simp [holderErrs, holderRec]
  | cons f t ih =>
    intro acc o r
    have hstep : holderStep today (acc, (⟨o, r⟩ : Inst)) f
        = (acc ++ (fieldStep today f o).1,
           (⟨o, applyWrite r f.field_name (fieldStep today f o).2⟩ : Inst)) := rfl
    rw [List.foldl_cons, hstep, ih]
    simp [holderErrs, holderRec, List.append_assoc]

theorem holderValidate_char (today : PyDate) (fs : List FieldDesc) (inst : Inst) :
    holderValidate today fs inst
      = (holderErrs today fs inst.orig, ⟨inst.orig, holderRec today fs inst.orig inst.record⟩) := by
  obtain ⟨o, r⟩ := inst
  simpa [holderValidate] using holder_foldl_char today fs [] o r

theorem lookupKey_holderRec_of_not_mem (today : PyDate) (o : List (String × Value))
    (nm : String) :
    ∀ (fs : List FieldDesc), nm ∉ fs.map FieldDesc.field_name →
      ∀ r, lookupKey (holderRec today fs o r) nm = lookupKey r nm := by
  intro fs
  induction fs with
  | nil => intro _ r; rfl
  | cons f t ih =>
    intro h r
    rw [List.map_cons, List.mem_cons] at h
    push_neg at h
    rw [holderRec, ih h.2]
    cases hw : (fieldStep today f o).2 with
    | none => rfl
    | some v => exact lookupKey_setKey_ne r f.field_name v nm (fun he => h.1 he.symm)

theorem lookupKey_holderRec_commit (today : PyDate) (o : List (String × Value))
    (f : FieldDesc) (v : Value) (hw : (fieldStep today f o).2 = some v) :
    ∀ (fs : List FieldDesc), (fs.map FieldDesc.field_name).Nodup → f ∈ fs →
      ∀ r, lookupKey (holderRec today fs o r) f.field_name = some v := by
  intro fs
  induction fs with
  | nil => intro _ hf; cases hf
  | cons g t ih =>
    intro hnd hf r
    rw [List.map_cons, List.nodup_cons] at hnd
    rcases List.mem_cons.mp hf with rfl | hmem
    · rw [holderRec, lookupKey_holderRec_of_not_mem today o f.field_name t hnd.1, hw]
      exact lookupKey_setKey_self r f.field_name v
    · exact ih hnd.2 hmem _

theorem holderRec_stable (today : PyDate) (o : List (String × Value)) :
    ∀ (fs : List FieldDesc),
      ∀ R, (∀ f ∈ fs, ∀ v, (fieldStep today f o).2 = some v →
              lookupKey R f.field_name = some v) →
      holderRec today fs o R = R := by
  intro fs
  induction fs with
  | nil => intro R _; rfl
  | cons g t ih =>
    intro R hR
    rw [holderRec]
    cases hw : (fieldStep today g o).2 with
    | none =>
      exact ih R (fun f hf v h => hR f (List.mem_cons_of_mem g hf) v h)
    | some v =>
      have hlk := hR g (List.mem_cons_self g t) v hw
      rw [show applyWrite R g.field_name (some v) = setKey R g.field_name v from rfl,
          setKey_eq_of_lookup R g.field_name v hlk]
      exact ih R (fun f hf v h => hR f (List.mem_cons_of_mem g hf) v h)

theorem bool_pairs_demorgan (a b c d e f : Bool) :
    ((a || b) && (c || d) && (e || f))
      = !((!a && !b) || (!c && !d) || (!e && !f)) := by
  cases a <;> cases b <;> cases c <;> cases d <;> cases e <;> cases f <;> rfl

/-! ### Claim C1 -/

/-- Claim C1 counterexample: for the descriptor with `required=False`
and `nullable=False` (the constructor defaults of `Field`), an absent
field does NOT succeed with null and no error messages — `Field.validate`
falls through to the null rule and produces `"f: field must not be
null"`, so the claim's "regardless of the descriptor's nullable flag" is
false. -/
theorem c1_counterexample :
    (fieldValidate today0 ⟨"f", false, false, FieldKind.base⟩ emptyInst).1
        = ["f: field must not be null"]
    ∧ (fieldValidate today0 ⟨"f", false, false, FieldKind.base⟩ emptyInst).1 ≠ [] := by
  exact ⟨by decide, by decide⟩

/-- Claim C1 (corrected): for every descriptor with `required = false`
and an input from which the field is absent, validation succeeds with
committed value null and no error messages exactly when the descriptor
is nullable; when it is not nullable, the null rule still runs and the
validation fails with `"<name>: field must not be null"` committing
nothing. -/
theorem c1_amended (today : PyDate) (f : FieldDesc) (inst : Inst)
    (h1 : f.required = false) (h2 : lookupKey inst.orig f.field_name = none) :
    fieldValidate today f inst
      = if f.nullable then
          ([], ⟨inst.orig, setKey inst.record f.field_name Value.null⟩)
        else ([format_err f.field_name "field must not be null"], inst) := by
  unfold fieldValidate fieldStep
  rw [h2]
  cases hn : f.nullable <;> simp [h1, hn, isNull, applyWrite]

/-- Witness for C1: the nullable optional descriptor on an absent field
commits null with no errors. -/
theorem c1_amended_witness :
    fieldValidate today0 ⟨"f", false, true, FieldKind.base⟩ emptyInst
      = ([], (⟨[], [("f", Value.null)]⟩ : Inst)) :=
  c1_amended today0 ⟨"f", false, true, FieldKind.base⟩ emptyInst rfl rfl

/-! ### Claim C2 -/

/-- Claim C2 (code_bug): `check_auth` is NOT total on validated
envelopes — when the login is not `"admin"` and the committed `account`
is null (account absent or supplied as null, both allowed by the
envelope schema), the standard branch formats `None` with `'{:s}'`,
which raises `TypeError` instead of returning a boolean. -/
theorem c2_check_auth_raises (hash : String → String) (nowS : String) (req : Inst)
    (l : String) (h1 : getAttr req "login" = Value.str l) (h2 : l ≠ "admin")
    (h3 : getAttr req "account" = Value.null) :
    check_auth hash nowS req
      = .error "unsupported format string passed to NoneType.__format__" := by
  unfold check_auth is_admin
  rw [h1]
  have hadm : pyEqStr (Value.str l) "admin" = false := by
    simp [pyEqStr, h2]
  rw [hadm]
  rw [if_neg (by simp)]
  rw [h3]
  rfl

/-- Witness for C2: a concrete non-admin envelope with a null account
makes `check_auth` raise. -/
theorem c2_witness :
    check_auth id "2017010100" req0
      = .error "unsupported format string passed to NoneType.__format__" :=
  c2_check_auth_raises id "2017010100" req0 "user" rfl (by decide) rfl

/-! ### Claim C5 -/

/-- Claim C5 counterexample: validating `{"account": "acme"}` against
the envelope schema fails (required fields missing), yet the converted
value of `account` — which individually passed — IS stored on the
record, contradicting "the accumulated converted values of fields that
individually passed are discarded, not stored on the record". -/
theorem c5_counterexample :
    (holderValidate today0 methodRequestFields (mkInst methodRequestFields c5struct)).1 ≠ []
    ∧ lookupKey
        ((holderValidate today0 methodRequestFields (mkInst methodRequestFields c5struct)).2).record
        "account"
      = some (Value.str "acme") := by
  exact ⟨by decide, by rfl⟩

/-- Claim C5 (corrected): `Field.validate` commits each converted value
to the instance record as soon as that single field's checks pass;
for any schema with distinct field names, a field whose `fieldStep`
produces a write keeps that committed value in the final record even
when the overall validation fails. -/
theorem c5_amended (today : PyDate) (fs : List FieldDesc) (struct : List (String × Value))
    (f : FieldDesc) (v : Value)
    (hnd : (fs.map FieldDesc.field_name).Nodup) (hf : f ∈ fs)
    (hw : (fieldStep today f (mkInst fs struct).orig).2 = some v) :
    lookupKey ((holderValidate today fs (mkInst fs struct)).2).record f.field_name = some v := by
  rw [holderValidate_char]
  exact lookupKey_holderRec_commit today _ f v hw fs hnd hf _

/-- Witness for C5: the committed `account` value survives the failed
envelope validation. -/
theorem c5_amended_witness :
    lookupKey
        ((holderValidate today0 methodRequestFields (mkInst methodRequestFields c5struct)).2).record
        accountDesc.field_name
      = some (Value.str "acme") :=
  c5_amended today0 methodRequestFields c5struct accountDesc (Value.str "acme")
    (by decide) (by decide) (by rfl)

/-! ### Claim C9 -/

/-- Claim C9 (confirmed): for every schema with distinct field names
(guaranteed in Python, where descriptors live in a class dict) and
every raw input mapping, running `FieldHolderBase.validate` a second
time on the instance state left by the first run yields the identical
error list and the identical committed record: the errors depend only
on the never-mutated raw (`orig`) entries, and the second pass rewrites
every committed key with the same value.  The wall clock consumed by the
birthday rule is an explicit parameter held fixed across the runs. -/
theorem c9_idempotent (today : PyDate) (fs : List FieldDesc) (struct : List (String × Value))
    (h : (fs.map FieldDesc.field_name).Nodup) :
    holderValidate today fs ((holderValidate today fs (mkInst fs struct)).2)
      = holderValidate today fs (mkInst fs struct) := by
  rw [holderValidate_char today fs (mkInst fs struct)]
  dsimp only
  rw [holderValidate_char]
  dsimp only
  rw [holderRec_stable today (mkInst fs struct).orig fs _
    (fun f hf v hw => lookupKey_holderRec_commit today _ f v hw fs h hf _)]

/-- Witness for C9: a concrete mixed input (one failing field, one
passing field) validates to the same result twice. -/
theorem c9_witness :
    holderValidate today0 methodRequestFields
        ((holderValidate today0 methodRequestFields (mkInst methodRequestFields c9struct)).2)
      = holderValidate today0 methodRequestFields (mkInst methodRequestFields c9struct) :=
  c9_idempotent today0 methodRequestFields c9struct (by decide)

/-! ### Claim C3 -/

/-- Claim C3 counterexample: with today = 2026-10-12, the date
1956-10-11 lies exactly 70 years and 1 day before today (it is the day
before the 70-years-ago anniversary 1956-10-12), yet the BirthDay field
VALIDATES it: the whole-years age is 70, which satisfies the bound, so
the claim's "a date 70 years and 1 day before today fails validation"
is false. -/
theorem c3_counterexample :
    dayBefore ⟨1956, 10, 12⟩ = ⟨1956, 10, 11⟩
    ∧ is_valid_birthday today0 ⟨1956, 10, 11⟩ = true
    ∧ (validate_convert_value today0 FieldKind.birthday "birthday" []
        (Value.str "11.10.1956")).1 = [] := by
  exact ⟨by decide, by decide, by decide⟩

theorem is_valid_birthday_mk (t : PyDate) (y m d : Int) :
    is_valid_birthday t ⟨y, m, d⟩
      = decide ((if t.month < m ∨ (t.month = m ∧ t.day < d) then t.year - y - 1
                 else t.year - y) ≤ 70) := rfl

theorem dayBefore_mk (y m d : Int) :
    dayBefore ⟨y, m, d⟩
      = if 1 < d then ⟨y, m, d - 1⟩
        else if 1 < m then ⟨y, m - 1, daysInMonth y (m - 1)⟩
        else ⟨y - 1, 12, 31⟩ := rfl

/-- Claim C3 (corrected): BirthDay validation succeeds exactly when the
computed whole-years age (decremented when today's month/day precedes
the birth month/day) is at most 70; a date exactly 70 years before
today validates, a date 70 years and 1 day before today ALSO validates
(its age is still 70), and failure begins at exactly 71 years before
today. -/
theorem c3_amended (t d : PyDate) :
    (is_valid_birthday t d = true ↔ computedAge t d ≤ 70)
    ∧ is_valid_birthday t ⟨t.year - 70, t.month, t.day⟩ = true
    ∧ is_valid_birthday t ⟨t.year - 71, t.month, t.day⟩ = false
    ∧ is_valid_birthday t (dayBefore ⟨t.year - 70, t.month, t.day⟩) = true := by
  refine ⟨?_, ?_, ?_, ?_⟩
  · unfold is_valid_birthday computedAge
    dsimp only
    split_ifs <;> simp [decide_eq_true_eq]
  · rw [is_valid_birthday_mk]
    simp only [decide_eq_true_eq]
    split_ifs <;> omega
  · rw [is_valid_birthday_mk]
    simp only [decide_eq_false_iff_not]
    split_ifs <;> omega
  · rw [dayBefore_mk]
    split_ifs <;> rw [is_valid_birthday_mk] <;> simp only [decide_eq_true_eq] <;>
      split_ifs <;> omega

/-! ### Claim C4 -/

/-- Claim C4 counterexample: a list containing a negative integer
PASSES ClientIDs field validation — `ClientIDsField` checks only
`isinstance(x, int)` and never the sign — so "each of which is greater
than or equal to 0 ... a list containing a negative integer fails" is
false. -/
theorem c4_counterexample :
    (fieldValidate today0 clientIdsDesc
        ⟨[("client_ids", Value.list [Value.int (-1)])], []⟩).1 = [] := by
  decide

/-- Claim C4 (corrected): for every present, non-null ClientIDs value,
per-field validation succeeds exactly when the value is a list whose
elements are all Python ints (booleans included); the sign of the
elements is not checked. -/
theorem c4_amended (today : PyDate) (inst : Inst) (v : Value)
    (h1 : lookupKey inst.orig "client_ids" = some v) (h2 : v ≠ Value.null) :
    ((fieldValidate today clientIdsDesc inst).1 = []
      ↔ ∃ xs, v = Value.list xs ∧ ∀ x ∈ xs, pyIsInt x = true) := by
  have hnull : isNull v = false := by
    cases v <;> simp_all [isNull]
  simp only [fieldValidate, fieldStep, clientIdsDesc, h1, hnull, Option.isNone_some,
    Option.getD_some, Bool.false_eq_true, false_and, if_false, if_true, ite_false, ite_true]
  cases v with
  | list xs =>
    cases hall : xs.all pyIsInt with
    | false =>
      simp_all [validate_convert_value, clientIDsCheck, pyIsList, List.all_eq_true]
    | true =>
      simp_all [validate_convert_value, clientIDsCheck, pyIsList, List.all_eq_true]
      rw [if_neg]
      rintro ⟨x, hx, hfx⟩
      rw [hall x hx] at hfx
      exact Bool.noConfusion hfx
  | null => exact absurd rfl h2
  | bool b => simp [validate_convert_value, clientIDsCheck, pyIsList]
  | int n => simp [validate_convert_value, clientIDsCheck, pyIsList]
  | str s => simp [validate_convert_value, clientIDsCheck, pyIsList]
  | dict d => simp [validate_convert_value, clientIDsCheck, pyIsList]
  | date d => simp [validate_convert_value, clientIDsCheck, pyIsList]

/-- Witness for C4: a singleton int list is accepted, matching the
characterization. -/
theorem c4_amended_witness :
    ((fieldValidate today0 clientIdsDesc ⟨[("client_ids", Value.list [Value.int 5])], []⟩).1 = []
      ↔ ∃ xs, Value.list [Value.int 5] = Value.list xs ∧ ∀ x ∈ xs, pyIsInt x = true) :=
  c4_amended today0 ⟨[("client_ids", Value.list [Value.int 5])], []⟩
    (Value.list [Value.int 5]) rfl (fun h => Value.noConfusion h)

/-! ### Claim C7 -/

/-- Claim C7 (confirmed): when all per-field checks of the online-score
payload pass, schema validation succeeds exactly when at least one of
the pairs (phone, email), (first_name, last_name), (gender, birthday)
is fully present and non-null in the committed record; otherwise it
fails with the single unqualified message `"not enough arguments"`.
When the per-field error list is nonempty, the cross-field rule does
not run and the result is exactly the per-field errors. -/
theorem c7_cross_field (today : PyDate) (struct : List (String × Value)) :
    ∀ e i, holderValidate today onlineScoreFields (mkInst onlineScoreFields struct) = (e, i) →
      ((e = [] →
          (((onlineScoreValidate today struct).1 = []) ↔ pairPresent i = true)
          ∧ (pairPresent i = false →
              onlineScoreValidate today struct = (["not enough arguments"], i)))
        ∧ (e ≠ [] → onlineScoreValidate today struct = (e, i))) := by
  intro e i h
  have hne : notEnoughArguments i = !pairPresent i := by
    unfold notEnoughArguments pairPresent
    exact bool_pairs_demorgan _ _ _ _ _ _
  unfold onlineScoreValidate
  rw [h]
  dsimp only
  constructor
  · intro he
    subst he
    rw [if_pos rfl, hne]
    cases hp : pairPresent i with
    | true =>
      refine ⟨?_, ?_⟩
      · rw [if_neg (by simp [hp])]
        simp
      · intro hcontra
        exact absurd hcontra (by simp [hp])
    | false =>
      refine ⟨?_, ?_⟩
      · rw [if_pos (by simp [hp])]
        simp [hp]
      · intro _
        rw [if_pos (by simp [hp])]
        rfl
  · intro hene
    rw [if_neg hene]

/-- Witness for C7: the payload `{"first_name": "A", "last_name": "B"}`
passes every per-field check and the name pair makes the cross-field
rule succeed. -/
theorem c7_witness :
    (onlineScoreValidate today0 c7struct).1 = [] ∧ pairPresent osAB = true :=
  ⟨(((c7_cross_field today0 c7struct [] osAB (by rfl)).1 rfl).1).mpr (by decide), by decide⟩

/-! ### Claim C8 -/

theorem pyDigitsThenEnd_iff (cs : List Char) :
    pyDigitsThenEnd cs = true ↔
      ((cs ≠ [] ∧ cs.all Char.isDigit = true) ∨
       (∃ ds, cs = ds ++ ['\n'] ∧ ds ≠ [] ∧ ds.all Char.isDigit = true)) := by
  unfold pyDigitsThenEnd
  by_cases h : cs.getLast? = some '\n'
  · have hcs : cs.dropLast ++ ['\n'] = cs := List.dropLast_append_getLast? '\n' h
    rw [if_pos (by simp [h])]
    constructor
    · intro hd
      rw [Bool.and_eq_true] at hd
      refine Or.inr ⟨cs.dropLast, hcs.symm, ?_, hd.2⟩
      intro hnil
      rw [hnil] at hd
      exact Bool.noConfusion hd.1
    · rintro (⟨hne, hall⟩ | ⟨ds, hEq, hne, hall⟩)
      · exfalso
        have hmem : '\n' ∈ cs := by
          rw [← hcs]
          simp
        have := List.all_eq_true.mp hall '\n' hmem
        exact Bool.noConfusion this
      · rw [hEq, List.dropLast_concat]
        simp [hne, hall]
  · rw [if_neg (by simp [h])]
    constructor
    · intro hd
      rw [Bool.and_eq_true] at hd
      refine Or.inl ⟨?_, hd.2⟩
      intro hnil
      rw [hnil] at hd
      exact Bool.noConfusion hd.1
    · rintro (⟨hne, hall⟩ | ⟨ds, hEq, hne, hall⟩)
      · simp [hne, hall]
      · exact absurd (hEq ▸ List.getLast?_concat ds) h

theorem is_valid_phone_iff (s : String) :
    is_valid_phone s = true ↔ phoneAcceptSpec s := by
  unfold is_valid_phone phoneAcceptSpec phoneReMatch
  rw [Bool.and_eq_true, beq_iff_eq]
  constructor
  · rintro ⟨hlen, hm⟩
    refine ⟨hlen, ?_⟩
    rcases hds : s.data with _ | ⟨c, cs⟩
    · rw [hds] at hm
      exact Bool.noConfusion hm
    · rw [hds] at hm
      have hm' : (c == '7' && pyDigitsThenEnd cs) = true := hm
      rw [Bool.and_eq_true, beq_iff_eq] at hm'
      obtain ⟨rfl, hdig⟩ := hm'
      rcases (pyDigitsThenEnd_iff cs).mp hdig with ⟨hne, hall⟩ | ⟨ds, hEq, hne, hall⟩
      · exact Or.inl ⟨cs, rfl, hne, hall⟩
      · exact Or.inr ⟨ds, by rw [hEq], hne, hall⟩
  · rintro ⟨hlen, hsp⟩
    refine ⟨hlen, ?_⟩
    rcases hsp with ⟨ds, hds, hne, hall⟩ | ⟨ds, hds, hne, hall⟩
    · rw [hds]
      show ('7' == '7' && pyDigitsThenEnd ds) = true
      rw [Bool.and_eq_true]
      exact ⟨by decide, (pyDigitsThenEnd_iff ds).mpr (Or.inl ⟨hne, hall⟩)⟩
    · rw [hds]
      show ('7' == '7' && pyDigitsThenEnd (ds ++ ['\n'])) = true
      rw [Bool.and_eq_true]
      exact ⟨by decide, (pyDigitsThenEnd_iff _).mpr (Or.inr ⟨ds, rfl, hne, hall⟩)⟩

theorem phoneCheck_typed (nm : String) (v : Value) (h : (pyIsStr v || pyIsInt v) = true) :
    phoneCheck nm ([], v)
      = if is_valid_phone (pyStrOf v) = false
        then ([format_err nm "field must be valid phone (11 digits, leading digit = 7)"],
              Value.str (pyStrOf v))
        else ([], Value.str (pyStrOf v)) := by
  cases v <;> simp_all [phoneCheck, pyIsStr, pyIsInt, pyStrOf, getStr]

/-- Claim C8 counterexample: the 11-character string `"7999123456\n"`
— ten digits and a trailing newline — is ACCEPTED by the phone check,
because the Python `$` anchor also matches just before a trailing
newline; its string form is not "exactly 11 digit characters", so the
claim's characterization of acceptance is false. -/
theorem c8_counterexample :
    (validate_convert_value today0 FieldKind.phone "phone" [] (Value.str "7999123456\n")).1 = []
    ∧ "7999123456\n".data.all Char.isDigit = false
    ∧ "7999123456\n".length = 11 := by
  exact ⟨by decide, by decide, by decide⟩

/-- Claim C8 (corrected): for every present, non-null value of string
or int type, phone validation accepts exactly when the string form has
11 characters, starts with `7` and continues with digits up to the end
— or up to one trailing newline, which Python's `$` anchor tolerates.
The value is converted to its string form (ints, including booleans,
are stringified); the claim's four concrete examples all hold. -/
theorem c8_amended (today : PyDate) (nm : String) (v : Value)
    (h : (pyIsStr v || pyIsInt v) = true) :
    (((validate_convert_value today FieldKind.phone nm [] v).1 = [])
        ↔ phoneAcceptSpec (pyStrOf v))
    ∧ (validate_convert_value today FieldKind.phone nm [] v).2 = Value.str (pyStrOf v) := by
  have hrfl : validate_convert_value today FieldKind.phone nm [] v = phoneCheck nm ([], v) := rfl
  rw [hrfl, phoneCheck_typed nm v h]
  cases hiv : is_valid_phone (pyStrOf v) with
  | false =>
    rw [if_pos rfl]
    refine ⟨iff_of_false (by simp) (fun hs => ?_), rfl⟩
    rw [(is_valid_phone_iff (pyStrOf v)).mpr hs] at hiv
    exact Bool.noConfusion hiv
  | true =>
    rw [if_neg (by simp)]
    exact ⟨iff_of_true rfl ((is_valid_phone_iff (pyStrOf v)).mp hiv), rfl⟩

/-- Witness for C8: the integer `79991234567` is accepted and converted
to the string `"79991234567"`. -/
theorem c8_amended_witness :
    (((validate_convert_value today0 FieldKind.phone "phone" [] (Value.int 79991234567)).1 = [])
        ↔ phoneAcceptSpec "79991234567")
    ∧ (validate_convert_value today0 FieldKind.phone "phone" [] (Value.int 79991234567)).2
        = Value.str "79991234567" :=
  c8_amended today0 "phone" (Value.int 79991234567) (by decide)

/-! ### Claim C6 -/

/-- Claim C6 counterexample: an authenticated admin request dispatched
to `clients_interests` reaches handler execution, yet the response is
the interests mapping — NOT the sentinel `{"score": 42}` — and the
scoring collaborator (`scoring.get_interests`) is invoked three times
(the third component of the result), so "the external scoring
collaborator is not invoked, regardless of the payload contents" is
false for admin callers of this method. -/
theorem c6_counterexample :
    method_handler collabT [] interestsBody
      = .ok (Value.dict
          [("1", Value.list [Value.str "cars"]), ("2", Value.list [Value.str "cars"]),
           ("3", Value.list [Value.str "cars"])],
          200, 3, [("nclients", Value.int 3)])
    ∧ Value.dict
        [("1", Value.list [Value.str "cars"]), ("2", Value.list [Value.str "cars"]),
         ("3", Value.list [Value.str "cars"])]
      ≠ Value.dict [("score", Value.int 42)]
    ∧ (3 : Nat) ≠ 0 := by
  refine ⟨by rfl, by simp, by decide⟩

/-- Claim C6 (corrected): for every authenticated admin request
dispatched to the `online_score` handler, the success response carries
the fixed sentinel `{"score": 42}` and `scoring.get_score` is not
invoked (zero collaborator calls), regardless of the payload contents;
admin requests dispatched to `clients_interests` still invoke
`scoring.get_interests` as usual. -/
theorem c6_amended (c : Collab) (ctx body : List (String × Value)) (mrI : Inst)
    (args : List (String × Value)) (osI : Inst)
    (h1 : holderValidate c.today methodRequestFields (mkInst methodRequestFields body)
            = ([], mrI))
    (h2 : check_auth c.sha512hex c.nowYmdH mrI = .ok true)
    (h3 : getAttr mrI "login" = Value.str "admin")
    (h4 : getAttr mrI "method" = Value.str "online_score")
    (h5 : getAttr mrI "arguments" = Value.dict args)
    (h6 : onlineScoreValidate c.today args = ([], osI)) :
    method_handler c ctx body
      = .ok (Value.dict [("score", Value.int 42)], 200, 0,
             setKey ctx "has" (Value.dict (hasDict osI))) := by
  unfold method_handler
  rw [h1]
  dsimp only
  rw [if_pos rfl, h2]
  dsimp only
  rw [if_neg (by simp), h4]
  rw [if_pos (show pyEqStr (Value.str "online_score") "online_score" = true by decide)]
  rw [h5]
  dsimp only [asDict]
  rw [h6]
  dsimp only
  rw [if_pos rfl]
  unfold get_score is_admin
  rw [h3]
  rw [show pyEqStr (Value.str "admin") "admin" = true by decide]
  rfl

/-- Witness for C6: a concrete admin `online_score` request gets the
sentinel score and makes no collaborator call. -/
theorem c6_amended_witness :
    method_handler collabT [] scoreBody
      = .ok (Value.dict [("score", Value.int 42)], 200, 0,
             [("has", Value.dict [("first_name", Value.str "A"), ("last_name", Value.str "B")])]) :=
  c6_amended collabT [] scoreBody mrScore osArgsAB osAB
    (by rfl) (by rfl) (by rfl) (by rfl) (by rfl) (by rfl)

/-! ### Claim C10 -/

/-- Claim C10 (confirmed): booleans pass the integer type checks at the
public interface — `isinstance(True, int)` holds in Python — so Gender
accepts `True` (committed unchanged; it compares equal to the integer 1,
i.e. male) and a ClientIDs list containing booleans passes the
list-of-integers check. -/
theorem c10_bool_as_int :
    (validate_convert_value today0 FieldKind.gender "gender" [] (Value.bool true)).1 = []
    ∧ (validate_convert_value today0 FieldKind.gender "gender" [] (Value.bool true)).2
        = Value.bool true
    ∧ pyEqInt (Value.bool true) 1 = true
    ∧ (validate_convert_value today0 FieldKind.clientIDs "client_ids" []
        (Value.list [Value.bool true, Value.bool false, Value.int 3])).1 = [] := by
  refine ⟨by decide, by rfl, by decide, by decide⟩

end Scoring
